import Mathlib

/-!
Verification of the unified multi-transport blog client
(`blog-client`: `lib.rs`, `http_client.rs`, `grpc_client.rs`, `error.rs`)
against its natural-language specification, together with the remote
RPC list endpoint (`blog-server`: `presentation/grpc_service.rs`,
`application/blog_service.rs`, `data/post_repository.rs`) where a claim
depends on remote semantics.

Conventions of the shallow embedding:
* Rust `i32`/`i64` become `Int`; the `as i32` truncating casts of the
  source are modelled explicitly by `wrap32`.
* Network effects are made explicit: each operation takes the wire
  response it would receive as a parameter and returns the new client
  state together with the decoded result.
* The fire-and-forget `tokio::spawn` that writes the canonical token
  cell after a successful auth call is modelled as having completed
  before the operation returns (the spec's §5 relaxation only allows
  other concurrent tasks to miss the update; the same caller's next
  call must see it).
* A Rust panic (the division by zero reachable in `list_posts`) is a
  distinguished outcome, not an error value.
-/

deriving instance DecidableEq for Except

namespace Blog

/-! ## Error taxonomy — `error.rs` -/

/-- The tonic RPC status codes (`tonic::Code`). -/
inductive GrpcCode
  | ok
  | cancelled
  | unknown
  | invalidArgument
  | deadlineExceeded
  | notFound
  | alreadyExists
  | permissionDenied
  | resourceExhausted
  | failedPrecondition
  | aborted
  | outOfRange
  | unimplemented
  | internal
  | unavailable
  | dataLoss
  | unauthenticated
deriving DecidableEq, Repr

/-- A tonic `Status`: a code plus a message. -/
structure GrpcStatus where
  code : GrpcCode
  message : String
deriving DecidableEq, Repr

/-- `BlogClientError` from `error.rs`: the unified error taxonomy. -/
inductive BlogClientError
  | httpError (msg : String)
  | grpcError (status : GrpcStatus)
  | grpcTransportError (msg : String)
  | invalidUri (msg : String)
  | notFound
  | unauthorized (detail : String)
  | invalidRequest (detail : String)
  | transportError (detail : String)
  | serializationError (detail : String)
deriving DecidableEq, Repr

/-- `BlogClientError::is_not_found`. -/
def BlogClientError.is_not_found : BlogClientError → Bool
  | .notFound => true
  | _ => false

/-- `BlogClientError.is_unauthorized`. -/
def BlogClientError.is_unauthorized : BlogClientError → Bool
  | .unauthorized _ => true
  | _ => false

/-- Discriminator for the `TransportError` kind (checker-side helper). -/
def BlogClientError.isTransportError : BlogClientError → Bool
  | .transportError _ => true
  | _ => false

/-- Discriminator for the `InvalidRequest` kind (checker-side helper). -/
def BlogClientError.isInvalidRequest : BlogClientError → Bool
  | .invalidRequest _ => true
  | _ => false

/-- `impl From<tonic::Status> for BlogClientError` (`error.rs` lines 51-64):
`NotFound ↦ NotFound`, `Unauthenticated ↦ Unauthorized(msg)`,
`InvalidArgument ↦ InvalidRequest(msg)`, every other code is wrapped
verbatim as `GrpcError(status)`. -/
def blogClientErrorFromStatus (status : GrpcStatus) : BlogClientError :=
  match status.code with
  | .notFound => .notFound
  | .unauthenticated => .unauthorized status.message
  | .invalidArgument => .invalidRequest status.message
  | _ => .grpcError status

/-! ## DTOs — `http_client.rs` -/

/-- `UserResponse`. -/
structure UserResponse where
  id : Int
  username : String
  email : String
  created_at : String
deriving DecidableEq, Repr

/-- `AuthResponse`. -/
structure AuthResponse where
  token : String
  user : UserResponse
deriving DecidableEq, Repr

/-- `PostResponse`. -/
structure PostResponse where
  id : Int
  title : String
  content : String
  author_id : Int
  created_at : String
  updated_at : String
deriving DecidableEq, Repr

/-- `PostsResponse`. -/
structure PostsResponse where
  posts : List PostResponse
  total : Int
  limit : Int
  offset : Int
deriving DecidableEq, Repr

/-- `RegisterRequest` as the façade builds it (`lib.rs` lines 109-114). -/
structure RegisterRequest where
  username : String
  email : String
  password : String
  full_name : String
deriving DecidableEq, Repr

/-- `LoginRequest`. -/
structure LoginRequest where
  username : String
  password : String
deriving DecidableEq, Repr

/-! ## HTTP sub-client — `http_client.rs` -/

/-- HTTP request method. -/
inductive HttpMethod
  | get
  | post
  | put
  | delete
deriving DecidableEq, Repr

/-- The observable shape of an outgoing HTTP request: method, full URL,
and the `Authorization` header value (set by `bearer_auth`), if any. -/
structure HttpRequest where
  method : HttpMethod
  url : String
  bearer : Option String
deriving DecidableEq, Repr

/-- `HttpClient` state: the base URL and the mirrored token. -/
structure HttpClientState where
  base_url : String
  token : Option String
deriving DecidableEq, Repr

/-- `HttpClient::new`: builds the client; never dials the endpoint and
never fails. -/
def HttpClientState.new (base_url : String) : HttpClientState :=
  { base_url := base_url, token := none }

/-- `HttpClient::set_token`. -/
def HttpClientState.set_token (s : HttpClientState) (token : String) : HttpClientState :=
  { s with token := some token }

/-- `HttpClient::get_token`. -/
def HttpClientState.get_token (s : HttpClientState) : Option String :=
  s.token

/-- `HttpClient::add_auth_header`: attaches `Bearer <token>` when the
mirror holds a token, otherwise leaves the request untouched. -/
def HttpClientState.add_auth_header (s : HttpClientState) (r : HttpRequest) : HttpRequest :=
  match s.token with
  | some t => { r with bearer := some ("Bearer " ++ t) }
  | none => r

/-- `str::trim_end_matches('/')`. -/
def trimEndSlashes (s : String) : String :=
  String.mk ((s.toList.reverse.dropWhile (fun c => c == '/')).reverse)

/-- `str::trim_start_matches('/')`. -/
def trimStartSlashes (s : String) : String :=
  String.mk (s.toList.dropWhile (fun c => c == '/'))

/-- `HttpClient::url`. -/
def HttpClientState.url (s : HttpClientState) (path : String) : String :=
  trimEndSlashes s.base_url ++ "/" ++ trimStartSlashes path

/-- Wire response to an auth call as the handler observes it: the
status code, the body text, and the decoded JSON payload when the body
parses as an `AuthResponse`. -/
structure HttpAuthWire where
  status : Int
  body : String
  decoded : Option AuthResponse
deriving DecidableEq, Repr

/-- Wire response to a post call. -/
structure HttpPostWire where
  status : Int
  body : String
  decoded : Option PostResponse
deriving DecidableEq, Repr

/-- `HttpClient::handle_auth_response` (`http_client.rs` lines 125-154):
200/201 decode and store the token in the mirror; 401 ↦ Unauthorized(body);
404 ↦ NotFound; 409 ↦ InvalidRequest(body); anything else ↦
`TransportError("HTTP <status>: <body>")`. A decode failure on a
2xx surfaces as the reqwest error (`HttpError`). -/
def HttpClientState.handle_auth_response (s : HttpClientState) (w : HttpAuthWire) :
    HttpClientState × Except BlogClientError AuthResponse :=
  if w.status = 200 ∨ w.status = 201 then
    match w.decoded with
    | some a => (s.set_token a.token, .ok a)
    | none => (s, .error (.httpError w.body))
  else if w.status = 401 then (s, .error (.unauthorized w.body))
  else if w.status = 404 then (s, .error .notFound)
  else if w.status = 409 then (s, .error (.invalidRequest w.body))
  else (s, .error (.transportError ("HTTP " ++ toString w.status ++ ": " ++ w.body)))

/-- `HttpClient::handle_post_response` (`http_client.rs` lines 260-291):
200/201 decode; 401 ↦ Unauthorized(body); 404 ↦ NotFound; 403 ↦
`InvalidRequest("Forbidden: <body>")`; anything else ↦
`TransportError("HTTP <status>: <body>")`. -/
def HttpClientState.handle_post_response (w : HttpPostWire) :
    Except BlogClientError PostResponse :=
  if w.status = 200 ∨ w.status = 201 then
    match w.decoded with
    | some p => .ok p
    | none => .error (.httpError w.body)
  else if w.status = 401 then .error (.unauthorized w.body)
  else if w.status = 404 then .error .notFound
  else if w.status = 403 then .error (.invalidRequest ("Forbidden: " ++ w.body))
  else .error (.transportError ("HTTP " ++ toString w.status ++ ": " ++ w.body))

/-- `HttpClient::register`: POST then `handle_auth_response`. The
request payload travels on the wire; the handler's result depends only
on the response. -/
def HttpClientState.register (s : HttpClientState) (_req : RegisterRequest)
    (w : HttpAuthWire) : HttpClientState × Except BlogClientError AuthResponse :=
  s.handle_auth_response w

/-- `HttpClient::login`. -/
def HttpClientState.login (s : HttpClientState) (_req : LoginRequest)
    (w : HttpAuthWire) : HttpClientState × Except BlogClientError AuthResponse :=
  s.handle_auth_response w

/-- The request `HttpClient::get_post` sends: a bare GET with no auth
header (`http_client.rs` lines 173-177 never call `add_auth_header`). -/
def HttpClientState.get_post_request (s : HttpClientState) (id : Int) : HttpRequest :=
  { method := .get, url := s.url ("/api/posts/" ++ toString id), bearer := none }

/-- The request `HttpClient::list_posts` sends (`http_client.rs` lines
223-242): query parameters for the present pagination arguments, no
auth header. -/
def HttpClientState.list_posts_request (s : HttpClientState)
    (limit offset : Option Int) : HttpRequest :=
  let base := s.url "/api/posts"
  let params :=
    (match limit with
     | some l => ["limit=" ++ toString l]
     | none => []) ++
    (match offset with
     | some o => ["offset=" ++ toString o]
     | none => [])
  let u := if params.isEmpty then base
           else base ++ "?" ++ String.intercalate "&" params
  { method := .get, url := u, bearer := none }

/-- The request `HttpClient::create_post` sends: POST through
`add_auth_header`. -/
def HttpClientState.create_post_request (s : HttpClientState)
    (_title _content : String) : HttpRequest :=
  s.add_auth_header { method := .post, url := s.url "/api/protected/posts", bearer := none }

/-- The request `HttpClient::update_post` sends: PUT through
`add_auth_header`. -/
def HttpClientState.update_post_request (s : HttpClientState) (id : Int)
    (_title _content : Option String) : HttpRequest :=
  s.add_auth_header
    { method := .put, url := s.url ("/api/protected/posts/" ++ toString id), bearer := none }

/-- The request `HttpClient::delete_post` sends: DELETE through
`add_auth_header`. -/
def HttpClientState.delete_post_request (s : HttpClientState) (id : Int) : HttpRequest :=
  s.add_auth_header
    { method := .delete, url := s.url ("/api/protected/posts/" ++ toString id), bearer := none }

/-! ## gRPC sub-client — `grpc_client.rs` -/

/-- A tonic `Request<T>`: the payload plus the `authorization` metadata
entry, if one was inserted. -/
structure GrpcRequest (α : Type) where
  authorization : Option String
  payload : α
deriving DecidableEq, Repr

/-- Proto `GetPostRequest`. -/
structure GetPostRequestMsg where
  id : Int
deriving DecidableEq, Repr

/-- Proto `ListPostsRequest` as `grpc_client.rs` builds it. -/
structure ListPostsRequestMsg where
  page : Int
  page_size : Int
  author_username : String
  tag : String
  published_only : Bool
  search_query : String
deriving DecidableEq, Repr

/-- Proto `CreatePostRequest` as `grpc_client.rs` builds it. -/
structure CreatePostRequestMsg where
  title : String
  content : String
  author_id : Int
  tags : List String
  published : Bool
deriving DecidableEq, Repr

/-- Proto `UpdatePostRequest` as `grpc_client.rs` builds it. -/
structure UpdatePostRequestMsg where
  id : Int
  title : Option String
  content : Option String
  tags : List String
  published : Option Bool
deriving DecidableEq, Repr

/-- Proto `DeletePostRequest` as `grpc_client.rs` builds it. -/
structure DeletePostRequestMsg where
  id : Int
  token : String
deriving DecidableEq, Repr

/-- Proto `RegisterResponse` as the client consumes it (`.user_id`,
`.token` are the fields `grpc_client.rs`/`lib.rs` read). -/
structure RegisterWire where
  user_id : Int
  token : String
  message : String
deriving DecidableEq, Repr

/-- Proto `User` as the client consumes it. -/
structure GrpcUserWire where
  id : Int
  username : String
  email : String
  created_at : String
deriving DecidableEq, Repr

/-- Proto `LoginResponse` as the client consumes it. -/
structure LoginWire where
  token : String
  refresh_token : String
  user : Option GrpcUserWire
  expires_in : Int
deriving DecidableEq, Repr

/-- `GrpcClient` state: the mirrored token (the channel handle is
opaque and is cloned per call, never mutated). -/
structure GrpcClientState where
  token : Option String
deriving DecidableEq, Repr

/-- `GrpcClient::set_token`. -/
def GrpcClientState.set_token (s : GrpcClientState) (token : String) : GrpcClientState :=
  { s with token := some token }

/-- `GrpcClient::get_token`. -/
def GrpcClientState.get_token (s : GrpcClientState) : Option String :=
  s.token

/-- `GrpcClient::add_auth_header`: inserts `authorization: Bearer <token>`
into the request metadata when the mirror holds a token. -/
def GrpcClientState.add_auth_header {α : Type} (s : GrpcClientState)
    (r : GrpcRequest α) : GrpcRequest α :=
  match s.token with
  | some t => { r with authorization := some ("Bearer " ++ t) }
  | none => r

/-- `GrpcClient::register` (`grpc_client.rs` lines 47-68): sends the
request; on success stores the response token in the mirror when it is
non-empty; a failure status goes through `From<tonic::Status>`. -/
def GrpcClientState.register (s : GrpcClientState)
    (_username _email _password : String)
    (wire : Except GrpcStatus RegisterWire) :
    GrpcClientState × Except BlogClientError RegisterWire :=
  match wire with
  | .error st => (s, .error (blogClientErrorFromStatus st))
  | .ok r =>
    (if r.token ≠ "" then s.set_token r.token else s, .ok r)

/-- `GrpcClient::login` (`grpc_client.rs` lines 70-90): on success
stores the response token in the mirror when it is non-empty. -/
def GrpcClientState.login (s : GrpcClientState)
    (_username _password : String)
    (wire : Except GrpcStatus LoginWire) :
    GrpcClientState × Except BlogClientError LoginWire :=
  match wire with
  | .error st => (s, .error (blogClientErrorFromStatus st))
  | .ok r =>
    (if r.token ≠ "" then s.set_token r.token else s, .ok r)

/-- The request `GrpcClient::get_post` sends (`grpc_client.rs` lines
110-114): `Request::new` with no `add_auth_header`. -/
def GrpcClientState.get_post_request (_s : GrpcClientState) (id : Int) :
    GrpcRequest GetPostRequestMsg :=
  { authorization := none, payload := { id := id } }

/-- The request `GrpcClient::list_posts` sends (`grpc_client.rs` lines
150-166): `Request::new` with no `add_auth_header`. -/
def GrpcClientState.list_posts_request (_s : GrpcClientState)
    (page page_size : Int) : GrpcRequest ListPostsRequestMsg :=
  { authorization := none
    payload :=
      { page := page, page_size := page_size, author_username := ""
        tag := "", published_only := true, search_query := "" } }

/-- The request `GrpcClient::create_post` sends: built through
`add_auth_header`. -/
def GrpcClientState.create_post_request (s : GrpcClientState)
    (title content : String) : GrpcRequest CreatePostRequestMsg :=
  s.add_auth_header
    { authorization := none
      payload :=
        { title := title, content := content, author_id := 0
          tags := [], published := true } }

/-- The request `GrpcClient::update_post` sends: built through
`add_auth_header`. -/
def GrpcClientState.update_post_request (s : GrpcClientState) (id : Int)
    (title content : Option String) : GrpcRequest UpdatePostRequestMsg :=
  s.add_auth_header
    { authorization := none
      payload :=
        { id := id, title := title, content := content
          tags := [], published := none } }

/-- The request `GrpcClient::delete_post` sends: built through
`add_auth_header`. -/
def GrpcClientState.delete_post_request (s : GrpcClientState) (id : Int) :
    GrpcRequest DeletePostRequestMsg :=
  s.add_auth_header
    { authorization := none, payload := { id := id, token := "" } }

/-! ## Remote RPC list endpoint — `blog-server` -/

/-- Two's-complement truncation of an integer to 32 bits: the Rust
`as i32` cast. The literals are `2 ^ 31` and `2 ^ 32`. -/
def wrap32 (x : Int) : Int :=
  (x + 2147483648) % 4294967296 - 2147483648

/-- Proto `ListPostsResponse`. -/
structure ListPostsWire where
  posts : List PostResponse
  total_count : Int
  page : Int
  page_size : Int
  total_pages : Int
deriving DecidableEq, Repr

/-- The remote RPC `list_posts` handler
(`grpc_service.rs` lines 285-316, `blog_service.rs` lines 94-115,
`post_repository.rs` lines 141-163), over an abstract store `items`
already in query order (`ORDER BY created_at DESC`):
the handler substitutes page size 10 unless `0 < page_size ≤ 100`,
computes the offset `(page - 1) * limit` in `i32` arithmetic for
positive pages, re-validates in the service layer, and returns the
slice `LIMIT limit OFFSET offset` together with the total count. -/
def serverListPosts (items : List PostResponse) (page page_size : Int) :
    Except GrpcStatus ListPostsWire :=
  let limit : Int := if 0 < page_size ∧ page_size ≤ 100 then page_size else 10
  let offset : Int := if 0 < page then wrap32 ((page - 1) * wrap32 limit) else 0
  if ¬(1 ≤ limit ∧ limit ≤ 100) then
    .error { code := .invalidArgument, message := "Limit must be between 1 and 100" }
  else if offset < 0 then
    .error { code := .invalidArgument, message := "Offset cannot be negative" }
  else
    .ok
      { posts := (items.drop offset.toNat).take limit.toNat
        total_count := wrap32 items.length
        page := page
        page_size := page_size
        total_pages := wrap32 ((items.length + limit - 1) / limit) }

/-! ## Unified façade — `lib.rs` -/

/-- `Transport`. -/
inductive Transport
  | http (base_url : String)
  | grpc (addr : String)
deriving DecidableEq, Repr

/-- `BlogClient` state: the transport selector, the optional
sub-clients, and the canonical token cell. -/
structure BlogClientState where
  transport : Transport
  http_client : Option HttpClientState
  grpc_client : Option GrpcClientState
  token : Option String
deriving DecidableEq, Repr

/-- `BlogClient::new` (`lib.rs` lines 33-54). The HTTP branch only
constructs a reqwest client and never dials; the gRPC branch awaits
`Channel::connect` and propagates a dial failure (`dial_ok` models
whether the endpoint accepts the connection). -/
def BlogClientState.new (transport : Transport) (dial_ok : Bool) :
    Except BlogClientError BlogClientState :=
  match transport with
  | .http base_url =>
    .ok
      { transport := transport
        http_client := some (HttpClientState.new base_url)
        grpc_client := none
        token := none }
  | .grpc addr =>
    if dial_ok then
      .ok
        { transport := transport
          http_client := none
          grpc_client := some { token := none }
          token := none }
    else
      .error (.grpcTransportError ("transport error: failed to connect to " ++ addr))

/-- `BlogClient::set_token` (`lib.rs` lines 57-75): writes the
canonical cell and the active sub-client's mirror. -/
def BlogClientState.set_token (s : BlogClientState) (token : String) : BlogClientState :=
  let s := { s with token := some token }
  match s.transport with
  | .http _ =>
    match s.http_client with
    | some h => { s with http_client := some (h.set_token token) }
    | none => s
  | .grpc _ =>
    match s.grpc_client with
    | some g => { s with grpc_client := some (g.set_token token) }
    | none => s

/-- `BlogClient::get_token`. -/
def BlogClientState.get_token (s : BlogClientState) : Option String :=
  s.token

/-- `BlogClient::clear_token` (`lib.rs` lines 83-86): writes `None`
into the canonical cell only. -/
def BlogClientState.clear_token (s : BlogClientState) : BlogClientState :=
  { s with token := none }

/-- `BlogClient::register` (`lib.rs` lines 89-167). `hw`/`gw` are the
wire responses the active transport would receive; `now` is the local
clock reading `chrono::Utc::now().to_rfc3339()` that the gRPC branch
uses to fabricate `created_at`. The background token write is applied
inline (see the module header). -/
def BlogClientState.register (s : BlogClientState)
    (username email password full_name : String)
    (hw : HttpAuthWire) (gw : Except GrpcStatus RegisterWire) (now : String) :
    BlogClientState × Except BlogClientError AuthResponse :=
  match s.transport with
  | .http _ =>
    match s.http_client with
    | some h =>
      let req : RegisterRequest :=
        { username := username, email := email, password := password
          full_name := full_name }
      let hr := h.register req hw
      match hr.2 with
      | .ok resp =>
        let s1 := { s with http_client := some hr.1 }
        let s2 :=
          match hr.1.get_token with
          | some t => { s1 with token := some t }
          | none => s1
        (s2, .ok resp)
      | .error e => ({ s with http_client := some hr.1 }, .error e)
    | none => (s, .error (.transportError "HTTP client not initialized"))
  | .grpc _ =>
    match s.grpc_client with
    | some g =>
      let gr := g.register username email password gw
      let s1 := { s with grpc_client := some gr.1 }
      match gr.2 with
      | .ok r =>
        (s1, .ok
          { token := ""
            user :=
              { id := r.user_id, username := username, email := email
                created_at := now } })
      | .error e => (s1, .error e)
    | none => (s, .error (.transportError "gRPC client not initialized"))

/-- `BlogClient::login` (`lib.rs` lines 170-252). The background token
write is applied inline (see the module header). -/
def BlogClientState.login (s : BlogClientState)
    (username password : String)
    (hw : HttpAuthWire) (gw : Except GrpcStatus LoginWire) :
    BlogClientState × Except BlogClientError AuthResponse :=
  match s.transport with
  | .http _ =>
    match s.http_client with
    | some h =>
      let req : LoginRequest := { username := username, password := password }
      let hr := h.login req hw
      match hr.2 with
      | .ok resp =>
        let s1 := { s with http_client := some hr.1 }
        let s2 :=
          match hr.1.get_token with
          | some t => { s1 with token := some t }
          | none => s1
        (s2, .ok resp)
      | .error e => ({ s with http_client := some hr.1 }, .error e)
    | none => (s, .error (.transportError "HTTP client not initialized"))
  | .grpc _ =>
    match s.grpc_client with
    | some g =>
      let gr := g.login username password gw
      match gr.2 with
      | .ok r =>
        let s1 := { s with grpc_client := some gr.1 }
        let s2 := if r.token ≠ "" then { s1 with token := some r.token } else s1
        match r.user with
        | some u =>
          (s2, .ok
            { token := r.token
              user :=
                { id := u.id, username := username, email := u.email
                  created_at := u.created_at } })
        | none => (s2, .error (.invalidRequest "No user data in response"))
      | .error e => ({ s with grpc_client := some gr.1 }, .error e)
    | none => (s, .error (.transportError "gRPC client not initialized"))

/-- Outcome of a `list_posts` call over the gRPC transport: the
division in the page computation can panic. -/
inductive ListPostsOutcome
  | divByZero
  | err (e : BlogClientError)
  | ok (r : PostsResponse)
deriving DecidableEq, Repr

/-- `BlogClient::list_posts`, gRPC branch (`lib.rs` lines 414-447),
composed with the remote handler `serverListPosts` over the abstract
store `items`. The page computation
`(offset.unwrap_or(0) / limit.unwrap_or(10)) as i32 + 1` divides by
`limit.unwrap_or(10)` — a Rust panic when that value is zero — and
truncates to `i32`; `page_size = limit.unwrap_or(10) as i32`. On the
return path the façade rebuilds the HTTP-shaped `PostsResponse` with
`total = total_count as i64`, `limit = limit.unwrap_or(10)`,
`offset = offset.unwrap_or(0)`. The reshaping of the wire response
(the `map` over posts and the field renaming) is split into
`listPostsReshape`; `BlogClientState.list_posts_grpc` is the whole
pipeline. -/
def listPostsReshape (l o : Int) (resp : Except GrpcStatus ListPostsWire) :
    ListPostsOutcome :=
  match resp with
  | .error st => .err (blogClientErrorFromStatus st)
  | .ok w =>
    .ok
      { posts := w.posts.map (fun p =>
          { id := p.id, title := p.title, content := p.content
            author_id := p.author_id, created_at := p.created_at
            updated_at := p.updated_at })
        total := w.total_count
        limit := l
        offset := o }

def BlogClientState.list_posts_grpc (items : List PostResponse)
    (limit offset : Option Int) : ListPostsOutcome :=
  let l := limit.getD 10
  if l = 0 then .divByZero
  else
    let page := wrap32 (wrap32 ((offset.getD 0).tdiv l) + 1)
    let page_size := wrap32 l
    listPostsReshape l (offset.getD 0) (serverListPosts items page page_size)

/-- Concatenation of the result pages of consecutive `list_posts`
calls over the gRPC transport with step `limit`: call `n` uses
`offset = n * limit`, as in the spec's pagination round-trip
property. -/
def listPostsSlices (items : List PostResponse) (m : Nat) (n : Nat) : List PostResponse :=
  (List.range n).flatMap (fun k =>
    match BlogClientState.list_posts_grpc items (some (m : Int)) (some ((k * m : Nat) : Int)) with
    | .ok r => r.posts
    | _ => [])

/-- A concrete store of 11 distinct posts, in query order. -/
def samplePosts : List PostResponse :=
  (List.range 11).map (fun i => ⟨(i : Int), "t", "c", 1, "d", "d"⟩)

/-! ## Shared helper lemmas -/

/-- `wrap32` is the identity on values already in `i32` range. -/
theorem wrap32_of_lt {x : Int} (h0 : 0 ≤ x) (h : x < 2 ^ 31) : wrap32 x = x := by
  unfold wrap32
  rw [Int.emod_eq_of_lt (by omega) (by omega)]
  omega

/-- Mapping the field-by-field `PostResponse` rebuild over a list is
the identity. -/
theorem map_postResponse_eta (l : List PostResponse) :
    l.map (fun p =>
      ({ id := p.id, title := p.title, content := p.content
         author_id := p.author_id, created_at := p.created_at
         updated_at := p.updated_at } : PostResponse)) = l := by
  induction l with
  | nil => rfl
  | cons a t ih => simp [ih]

/-! ## C2 — the RPC error normalizer -/

/-- C2 counterexample: the claim says RPC "already exists" maps to an
`AlreadyExists` kind, "permission denied" to `Forbidden`, and every
other status code to `TransportError`; in the code all three are
wrapped verbatim as `GrpcError(status)` (and no `AlreadyExists` or
`Forbidden` kind exists in the taxonomy at all). -/
theorem from_status_counterexample :
    blogClientErrorFromStatus ⟨.alreadyExists, "dup"⟩ = .grpcError ⟨.alreadyExists, "dup"⟩ ∧
    (blogClientErrorFromStatus ⟨.alreadyExists, "dup"⟩).isTransportError = false ∧
    blogClientErrorFromStatus ⟨.permissionDenied, "no"⟩ = .grpcError ⟨.permissionDenied, "no"⟩ ∧
    (blogClientErrorFromStatus ⟨.internal, "boom"⟩).isTransportError = false := by
  refine ⟨rfl, rfl, rfl, rfl⟩

/-- C2 amended: the normalizer maps RPC "not found" to `NotFound`,
"unauthenticated" to `Unauthorized(detail)`, "invalid argument" to
`InvalidRequest(detail)`, and every other status code — including
"already exists" and "permission denied" — to `GrpcError(status)`
carrying the raw status, not to `TransportError`. -/
theorem from_status_amended (m : String) (c : GrpcCode)
    (h1 : c ≠ .notFound) (h2 : c ≠ .unauthenticated) (h3 : c ≠ .invalidArgument) :
    blogClientErrorFromStatus ⟨.notFound, m⟩ = .notFound ∧
    blogClientErrorFromStatus ⟨.unauthenticated, m⟩ = .unauthorized m ∧
    blogClientErrorFromStatus ⟨.invalidArgument, m⟩ = .invalidRequest m ∧
    blogClientErrorFromStatus ⟨c, m⟩ = .grpcError ⟨c, m⟩ := by
  refine ⟨rfl, rfl, rfl, ?_⟩
  cases c <;> simp_all [blogClientErrorFromStatus]

/-- C2 witness: the amended mapping at the "already exists" code. -/
theorem from_status_amended_witness :
    (GrpcCode.alreadyExists ≠ .notFound) ∧
    (GrpcCode.alreadyExists ≠ .unauthenticated) ∧
    (GrpcCode.alreadyExists ≠ .invalidArgument) ∧
    (blogClientErrorFromStatus ⟨.notFound, "dup"⟩ = .notFound ∧
     blogClientErrorFromStatus ⟨.unauthenticated, "dup"⟩ = .unauthorized "dup" ∧
     blogClientErrorFromStatus ⟨.invalidArgument, "dup"⟩ = .invalidRequest "dup" ∧
     blogClientErrorFromStatus ⟨.alreadyExists, "dup"⟩ = .grpcError ⟨.alreadyExists, "dup"⟩) :=
  ⟨by decide, by decide, by decide,
   from_status_amended "dup" .alreadyExists (by decide) (by decide) (by decide)⟩

/-! ## C3 — pagination translation divides by zero for `limit = Some(0)` -/

/-- C3: the claim (and the spec) says a zero *or* absent `limit` is
defaulted to 10 before computing `page`, so the division can never be
by zero. The code only defaults an *absent* limit
(`limit.unwrap_or(10)`); `limit = Some(0)` reaches
`offset.unwrap_or(0) / 0`, a Rust panic. An absent limit does default
to 10 as claimed. -/
theorem list_posts_zero_limit_divides_by_zero :
    BlogClientState.list_posts_grpc [] (some 0) (some 7) = .divByZero ∧
    BlogClientState.list_posts_grpc [] none (some 7) =
      .ok { posts := [], total := 0, limit := 10, offset := 7 } := by
  refine ⟨rfl, by decide⟩

/-! ## C4 — write calls attach the sub-client mirror, not Session State -/

/-- C4 counterexample: after `set_token "tok"` followed by
`clear_token`, the Façade's canonical Session State holds no token,
yet the HTTP sub-client still mirrors `"tok"` and a `create_post`
issued in that state attaches `Bearer tok` instead of omitting the
header — the attached token is neither the Session State token nor
absent. -/
theorem write_auth_counterexample :
    (BlogClientState.clear_token
      (BlogClientState.set_token
        ⟨.http "B", some ⟨"B", none⟩, none, none⟩ "tok")).token = none ∧
    (BlogClientState.clear_token
      (BlogClientState.set_token
        ⟨.http "B", some ⟨"B", none⟩, none, none⟩ "tok")).http_client =
      some ⟨"B", some "tok"⟩ ∧
    (HttpClientState.create_post_request ⟨"B", some "tok"⟩ "t" "c").bearer =
      some "Bearer tok" := by
  refine ⟨rfl, rfl, rfl⟩

/-- C4 amended: every posts write call attaches exactly the token held
in the *active sub-client's mirror*, formatted `Bearer <token>`, or
omits the header when the mirror is empty. The mirror agrees with
Session State after `set_token` and after HTTP auth successes, but
`clear_token` empties only Session State, so a write issued after
`clear_token` still attaches the stale mirrored token. -/
theorem write_auth_amended (h : HttpClientState) (g : GrpcClientState)
    (title content : String) (id : Int) (t2 c2 : Option String) :
    (h.create_post_request title content).bearer =
      h.token.map (fun tk => "Bearer " ++ tk) ∧
    (h.update_post_request id t2 c2).bearer =
      h.token.map (fun tk => "Bearer " ++ tk) ∧
    (h.delete_post_request id).bearer =
      h.token.map (fun tk => "Bearer " ++ tk) ∧
    (g.create_post_request title content).authorization =
      g.token.map (fun tk => "Bearer " ++ tk) ∧
    (g.update_post_request id t2 c2).authorization =
      g.token.map (fun tk => "Bearer " ++ tk) ∧
    (g.delete_post_request id).authorization =
      g.token.map (fun tk => "Bearer " ++ tk) := by
  obtain ⟨bu, tk⟩ := h
  obtain ⟨gtk⟩ := g
  cases tk <;> cases gtk <;>
    simp [HttpClientState.create_post_request, HttpClientState.update_post_request,
      HttpClientState.delete_post_request, HttpClientState.add_auth_header,
      GrpcClientState.create_post_request, GrpcClientState.update_post_request,
      GrpcClientState.delete_post_request, GrpcClientState.add_auth_header]

/-! ## C5 — HTTP failure-status normalization -/

/-- C5 counterexample: the claim says the HTTP sub-client maps 409 to
`InvalidRequest(body)` and 403 to `InvalidRequest("Forbidden: " ++ body)`.
Only the auth handler has a 409 arm and only the post handler has a
403 arm: `handle_post_response` sends 409 to the catch-all
`TransportError`, and `handle_auth_response` sends 403 to
`TransportError`. -/
theorem http_error_mapping_counterexample :
    HttpClientState.handle_post_response ⟨409, "dup", none⟩ =
      .error (.transportError "HTTP 409: dup") ∧
    HttpClientState.handle_post_response ⟨409, "dup", none⟩ ≠
      .error (.invalidRequest "dup") ∧
    (HttpClientState.handle_auth_response ⟨"B", none⟩ ⟨403, "no", none⟩).2 =
      .error (.transportError "HTTP 403: no") ∧
    (HttpClientState.handle_auth_response ⟨"B", none⟩ ⟨403, "no", none⟩).2 ≠
      .error (.invalidRequest ("Forbidden: no")) := by
  refine ⟨by decide, by decide, by decide, by decide⟩

/-- C5 amended: per handler. The auth-response handler maps 401 to
`Unauthorized(body)`, 404 to `NotFound`, 409 to `InvalidRequest(body)`,
and everything else — 403 included — to
`TransportError("HTTP <status>: <body>")`. The post-response handler
maps 401 to `Unauthorized(body)`, 404 to `NotFound`, 403 to
`InvalidRequest("Forbidden: " ++ body)`, and everything else — 409
included — to `TransportError("HTTP <status>: <body>")`. -/
theorem http_error_mapping_amended (s : HttpClientState) (body : String)
    (st : Int) (d : Option AuthResponse) (dp : Option PostResponse)
    (h200 : st ≠ 200) (h201 : st ≠ 201) (h401 : st ≠ 401)
    (h403 : st ≠ 403) (h404 : st ≠ 404) (h409 : st ≠ 409) :
    (s.handle_auth_response ⟨401, body, d⟩ = (s, .error (.unauthorized body))) ∧
    (s.handle_auth_response ⟨404, body, d⟩ = (s, .error .notFound)) ∧
    (s.handle_auth_response ⟨409, body, d⟩ = (s, .error (.invalidRequest body))) ∧
    (s.handle_auth_response ⟨403, body, d⟩ =
      (s, .error (.transportError ("HTTP 403: " ++ body)))) ∧
    (s.handle_auth_response ⟨st, body, d⟩ =
      (s, .error (.transportError ("HTTP " ++ toString st ++ ": " ++ body)))) ∧
    (HttpClientState.handle_post_response ⟨401, body, dp⟩ = .error (.unauthorized body)) ∧
    (HttpClientState.handle_post_response ⟨404, body, dp⟩ = .error .notFound) ∧
    (HttpClientState.handle_post_response ⟨403, body, dp⟩ =
      .error (.invalidRequest ("Forbidden: " ++ body))) ∧
    (HttpClientState.handle_post_response ⟨409, body, dp⟩ =
      .error (.transportError ("HTTP 409: " ++ body))) ∧
    (HttpClientState.handle_post_response ⟨st, body, dp⟩ =
      .error (.transportError ("HTTP " ++ toString st ++ ": " ++ body))) := by
  refine ⟨?_, ?_, ?_, ?_, ?_, ?_, ?_, ?_, ?_, ?_⟩ <;>
    simp_all [HttpClientState.handle_auth_response, HttpClientState.handle_post_response,
      show toString (403 : Int) = "403" from rfl, show toString (409 : Int) = "409" from rfl]

/-- C5 witness: the amended mapping at status 500 with body `"b"`. -/
theorem http_error_mapping_amended_witness :
    ((500 : Int) ≠ 200) ∧ ((500 : Int) ≠ 201) ∧ ((500 : Int) ≠ 401) ∧
    ((500 : Int) ≠ 403) ∧ ((500 : Int) ≠ 404) ∧ ((500 : Int) ≠ 409) ∧
    ((HttpClientState.handle_auth_response ⟨"B", none⟩ ⟨401, "b", none⟩ =
        (⟨"B", none⟩, .error (.unauthorized "b"))) ∧
     (HttpClientState.handle_auth_response ⟨"B", none⟩ ⟨404, "b", none⟩ =
        (⟨"B", none⟩, .error .notFound)) ∧
     (HttpClientState.handle_auth_response ⟨"B", none⟩ ⟨409, "b", none⟩ =
        (⟨"B", none⟩, .error (.invalidRequest "b"))) ∧
     (HttpClientState.handle_auth_response ⟨"B", none⟩ ⟨403, "b", none⟩ =
        (⟨"B", none⟩, .error (.transportError ("HTTP 403: " ++ "b")))) ∧
     (HttpClientState.handle_auth_response ⟨"B", none⟩ ⟨500, "b", none⟩ =
        (⟨"B", none⟩, .error (.transportError ("HTTP " ++ toString (500 : Int) ++ ": " ++ "b")))) ∧
     (HttpClientState.handle_post_response ⟨401, "b", none⟩ = .error (.unauthorized "b")) ∧
     (HttpClientState.handle_post_response ⟨404, "b", none⟩ = .error .notFound) ∧
     (HttpClientState.handle_post_response ⟨403, "b", none⟩ =
        .error (.invalidRequest ("Forbidden: " ++ "b"))) ∧
     (HttpClientState.handle_post_response ⟨409, "b", none⟩ =
        .error (.transportError ("HTTP 409: " ++ "b"))) ∧
     (HttpClientState.handle_post_response ⟨500, "b", none⟩ =
        .error (.transportError ("HTTP " ++ toString (500 : Int) ++ ": " ++ "b")))) :=
  ⟨by decide, by decide, by decide, by decide, by decide, by decide,
   http_error_mapping_amended ⟨"B", none⟩ "b" 500 none none
     (by decide) (by decide) (by decide) (by decide) (by decide) (by decide)⟩

/-! ## C7 — construction and connectivity -/

/-- C7 counterexample: the claim says construction fails whenever the
chosen transport cannot establish initial connectivity, for both
variants; the HTTP variant never dials, so construction succeeds even
when the endpoint is unreachable. -/
theorem new_http_no_connectivity_check :
    BlogClientState.new (.http "http://192.0.2.1:1") false =
      .ok ⟨.http "http://192.0.2.1:1", some ⟨"http://192.0.2.1:1", none⟩, none, none⟩ := by
  rfl

/-- C7 amended: construction is asynchronous and propagates a dial
failure only for the RPC transport variant: the gRPC branch awaits the
channel connect and errors when it fails, while the HTTP branch
constructs unconditionally without any connectivity check. -/
theorem new_connectivity_amended (base addr : String) (dial : Bool) :
    (BlogClientState.new (.http base) dial =
      .ok ⟨.http base, some ⟨base, none⟩, none, none⟩) ∧
    (BlogClientState.new (.grpc addr) true =
      .ok ⟨.grpc addr, none, some ⟨none⟩, none⟩) ∧
    (BlogClientState.new (.grpc addr) false =
      .error (.grpcTransportError ("transport error: failed to connect to " ++ addr))) := by
  refine ⟨rfl, rfl, rfl⟩

/-! ## C9 — clear_token frame effect -/

/-- C9: `clear_token` writes `None` into the canonical token cell only,
leaving the transport selector and both sub-client slots (hence the
mirrored token inside the active sub-client) untouched, so a posts
write issued afterwards still attaches the previously mirrored token;
`set_token`, by contrast, writes the canonical cell and the active
sub-client's mirror. -/
theorem clear_token_frame (bu ad t title content : String)
    (h : HttpClientState) (g : GrpcClientState) (cTok : Option String) :
    (BlogClientState.clear_token ⟨.http bu, some h, none, cTok⟩ =
      ⟨.http bu, some h, none, none⟩) ∧
    (BlogClientState.clear_token ⟨.grpc ad, none, some g, cTok⟩ =
      ⟨.grpc ad, none, some g, none⟩) ∧
    ((h.create_post_request title content).bearer =
      h.token.map (fun tk => "Bearer " ++ tk)) ∧
    ((g.create_post_request title content).authorization =
      g.token.map (fun tk => "Bearer " ++ tk)) ∧
    (BlogClientState.set_token ⟨.http bu, some h, none, cTok⟩ t =
      ⟨.http bu, some ⟨h.base_url, some t⟩, none, some t⟩) ∧
    (BlogClientState.set_token ⟨.grpc ad, none, some g, cTok⟩ t =
      ⟨.grpc ad, none, some ⟨some t⟩, some t⟩) := by
  refine ⟨rfl, rfl, ?_, ?_, rfl, rfl⟩
  · cases htk : h.token <;>
      simp [HttpClientState.create_post_request, HttpClientState.add_auth_header, htk]
  · cases gtk : g.token <;>
      simp [GrpcClientState.create_post_request, GrpcClientState.add_auth_header, gtk]

/-! ## C10 — read requests are token-independent -/

/-- C10: for every post id and pagination argument, `get_post` and
`list_posts` build the same wire request whatever token the sub-client
mirrors: neither sub-client attaches an authorization header (HTTP) or
an authorization metadata entry (RPC) on a read. -/
theorem read_requests_token_independent (base : String) (tok tok2 : Option String)
    (id : Int) (l o : Option Int) (page page_size : Int) :
    (HttpClientState.get_post_request ⟨base, tok⟩ id =
      HttpClientState.get_post_request ⟨base, tok2⟩ id) ∧
    ((HttpClientState.get_post_request ⟨base, tok⟩ id).bearer = none) ∧
    (HttpClientState.list_posts_request ⟨base, tok⟩ l o =
      HttpClientState.list_posts_request ⟨base, tok2⟩ l o) ∧
    ((HttpClientState.list_posts_request ⟨base, tok⟩ l o).bearer = none) ∧
    (GrpcClientState.get_post_request ⟨tok⟩ id =
      GrpcClientState.get_post_request ⟨tok2⟩ id) ∧
    ((GrpcClientState.get_post_request ⟨tok⟩ id).authorization = none) ∧
    (GrpcClientState.list_posts_request ⟨tok⟩ page page_size =
      GrpcClientState.list_posts_request ⟨tok2⟩ page page_size) ∧
    ((GrpcClientState.list_posts_request ⟨tok⟩ page page_size).authorization = none) := by
  refine ⟨rfl, rfl, rfl, rfl, rfl, rfl, rfl, rfl⟩

/-! ## C6 — pagination round-trip over the RPC transport -/

/-- Evaluation of the remote list handler on an in-range page. -/
theorem serverListPosts_eval (items : List PostResponse) (p m : Nat)
    (hm1 : 1 ≤ m) (hm2 : m ≤ 100) (hpm : p * m ≤ 2 ^ 30) :
    serverListPosts items ((p : Int) + 1) (m : Int) =
      .ok { posts := (items.drop (p * m)).take m
            total_count := wrap32 items.length
            page := (p : Int) + 1
            page_size := (m : Int)
            total_pages := wrap32 (((items.length : Int) + (m : Int) - 1) / (m : Int)) } := by
  have h1le : (1 : Int) ≤ (m : Int) := by exact_mod_cast hm1
  have h100 : (m : Int) ≤ 100 := by exact_mod_cast hm2
  have c1 : (0 : Int) < (m : Int) ∧ (m : Int) ≤ 100 := ⟨by omega, h100⟩
  have c2 : (0 : Int) < (p : Int) + 1 := by omega
  have hw32m : wrap32 (m : Int) = (m : Int) := wrap32_of_lt (by omega) (by omega)
  have epm : (p : Int) * (m : Int) = ((p * m : Nat) : Int) := by
    push_cast
    ring
  have e2 : wrap32 ((p * m : Nat) : Int) = ((p * m : Nat) : Int) :=
    wrap32_of_lt (Int.natCast_nonneg _)
      (by exact_mod_cast lt_of_le_of_lt hpm (by norm_num))
  have hnn : ¬(((p * m : Nat) : Int) < 0) := not_lt.mpr (Int.natCast_nonneg _)
  simp only [serverListPosts, if_pos c1, if_pos c2, hw32m, add_sub_cancel_right, epm, e2]
  rw [if_neg (not_not_intro ⟨h1le, h100⟩), if_neg hnn]
  simp only [epm, Int.toNat_ofNat]

/-- Evaluation of the full gRPC list pipeline on in-range inputs: the
page computation sends offset `o` to page `o / m + 1`, so the server
slice starts at `(o / m) * m`, and the façade echoes `limit`/`offset`
and surfaces the wire `total_count`. -/
theorem list_posts_grpc_eval (items : List PostResponse) (m o : Nat)
    (hm1 : 1 ≤ m) (hm2 : m ≤ 100) (ho : o ≤ 2 ^ 30) :
    BlogClientState.list_posts_grpc items (some (m : Int)) (some (o : Int)) =
      .ok { posts := (items.drop (o / m * m)).take m
            total := wrap32 items.length
            limit := (m : Int)
            offset := (o : Int) } := by
  have hm0 : ¬((m : Int) = 0) := by
    simp only [Int.natCast_eq_zero]
    omega
  have hdiv : (o : Int).tdiv (m : Int) = ((o / m : Nat) : Int) := (Int.ofNat_tdiv o m).symm
  have hqb : (o / m : Nat) < 2 ^ 31 :=
    lt_of_le_of_lt (le_trans (Nat.div_le_self o m) ho) (by norm_num)
  have e1 : wrap32 ((o / m : Nat) : Int) = ((o / m : Nat) : Int) :=
    wrap32_of_lt (Int.natCast_nonneg _) (by exact_mod_cast hqb)
  have hqle : (o / m : Nat) ≤ 2 ^ 30 := le_trans (Nat.div_le_self o m) ho
  have hx2n : (o / m : Nat) + 1 < 2 ^ 31 := by omega
  have e2 : wrap32 (((o / m : Nat) : Int) + 1) = ((o / m : Nat) : Int) + 1 :=
    wrap32_of_lt (by positivity) (by exact_mod_cast hx2n)
  have e3 : wrap32 (m : Int) = (m : Int) := wrap32_of_lt (by positivity) (by
    have : m < 2 ^ 31 := by omega
    exact_mod_cast this)
  have hsrv := serverListPosts_eval items (o / m) m hm1 hm2
    (le_trans (Nat.div_mul_le_self o m) ho)
  unfold BlogClientState.list_posts_grpc
  simp only [Option.getD_some]
  rw [if_neg hm0, hdiv, e1, e2, e3, hsrv]
  simp only [listPostsReshape]
  exact congrArg
    (fun l => ListPostsOutcome.ok
      { posts := l, total := wrap32 items.length, limit := (m : Int), offset := (o : Int) })
    (map_postResponse_eta ((items.drop (o / m * m)).take m))

/-- Concatenating consecutive pages with step `m` reproduces the first
`n * m` items of the store. -/
theorem listPostsSlices_eq_take (items : List PostResponse) (m : Nat)
    (hm1 : 1 ≤ m) (hm2 : m ≤ 100) :
    ∀ n : Nat, n * m ≤ 2 ^ 30 → listPostsSlices items m n = items.take (n * m) := by
  intro n
  induction n with
  | zero =>
    intro _
    simp [listPostsSlices]
  | succ k ih =>
    intro hb
    have hkb : k * m ≤ 2 ^ 30 := le_trans (by nlinarith) hb
    have heval := list_posts_grpc_eval items m (k * m) hm1 hm2 hkb
    have hck : k * m / m = k := Nat.mul_div_cancel k (by omega)
    unfold listPostsSlices
    rw [List.range_succ, List.flatMap_append]
    have hprev : listPostsSlices items m k = items.take (k * m) := ih hkb
    unfold listPostsSlices at hprev
    rw [hprev]
    simp only [List.flatMap_cons, List.flatMap_nil, List.append_nil, heval, hck]
    rw [← List.take_add]
    congr 1
    ring

/-- C6 counterexample: the remote handler substitutes page size 10
whenever the requested `page_size` is outside `1..=100`
(`grpc_service.rs` lines 291-295). With `limit = 101` over a store of
11 posts, stepping the offset by `limit` up to `total` makes a single
call, which returns only 10 of the 11 items: the concatenation has a
gap, refuting the claim for `limit > 100`. -/
theorem pagination_coverage_counterexample :
    listPostsSlices samplePosts 101 ((samplePosts.length + 101 - 1) / 101) ≠ samplePosts ∧
    BlogClientState.list_posts_grpc samplePosts (some 101) (some 0) =
      .ok { posts := samplePosts.take 10, total := 11, limit := 101, offset := 0 } := by
  refine ⟨by decide, by decide⟩

/-- C6 amended: for `1 ≤ limit ≤ 100` (the range the remote honors)
and in-range offsets, a `list_posts` call over the RPC transport
succeeds, echoes the request `limit` and `offset`, surfaces the RPC
`total_count` as `total`, and returns the server slice starting at
`(offset / limit) * limit`; concatenating consecutive pages with step
`limit` covers every item exactly once, with no gaps or duplicates, up
to `total`. For `limit > 100` the remote silently substitutes page
size 10 and the stepped concatenation leaves gaps. -/
theorem pagination_roundtrip_amended (items : List PostResponse) (m o : Nat)
    (hm1 : 1 ≤ m) (hm2 : m ≤ 100) (ho : o ≤ 2 ^ 30) (hlen : items.length ≤ 2 ^ 24) :
    BlogClientState.list_posts_grpc items (some (m : Int)) (some (o : Int)) =
      .ok { posts := (items.drop (o / m * m)).take m
            total := (items.length : Int)
            limit := (m : Int)
            offset := (o : Int) } ∧
    listPostsSlices items m ((items.length + m - 1) / m) = items := by
  constructor
  · have h := list_posts_grpc_eval items m o hm1 hm2 ho
    rwa [wrap32_of_lt (Int.natCast_nonneg _)
      (by exact_mod_cast lt_of_le_of_lt hlen (by norm_num))] at h
  · have hn : ((items.length + m - 1) / m) * m ≤ 2 ^ 30 :=
      le_trans (Nat.div_mul_le_self _ m) (by omega)
    rw [listPostsSlices_eq_take items m hm1 hm2 _ hn]
    refine List.take_of_length_le ?_
    rcases Nat.eq_zero_or_pos items.length with h0 | hpos
    · simp [h0]
    · obtain ⟨l, hl⟩ : ∃ l, items.length = l + 1 := ⟨items.length - 1, by omega⟩
      rw [hl, show l + 1 + m - 1 = l + m by omega, Nat.add_div_right l (by omega)]
      have hlt : l % m < m := Nat.mod_lt _ (by omega)
      have h1 : l < m * (l / m) + m := by
        calc l = m * (l / m) + l % m := (Nat.div_add_mod l m).symm
        _ < m * (l / m) + m := Nat.add_lt_add_left hlt _
      calc l + 1 ≤ m * (l / m) + m := h1
      _ = (l / m + 1) * m := by ring

/-- C6 witness: the amended round-trip on the 11-post store with
`limit = 3`, `offset = 4`. -/
theorem pagination_roundtrip_amended_witness :
    (1 ≤ 3) ∧ (3 ≤ 100) ∧ (4 ≤ 2 ^ 30) ∧ (samplePosts.length ≤ 2 ^ 24) ∧
    (BlogClientState.list_posts_grpc samplePosts (some ((3 : Nat) : Int)) (some ((4 : Nat) : Int)) =
      .ok { posts := (samplePosts.drop (4 / 3 * 3)).take 3
            total := (samplePosts.length : Int)
            limit := ((3 : Nat) : Int)
            offset := ((4 : Nat) : Int) } ∧
     listPostsSlices samplePosts 3 ((samplePosts.length + 3 - 1) / 3) = samplePosts) :=
  ⟨by decide, by decide, by decide, by decide,
   pagination_roundtrip_amended samplePosts 3 4 (by decide) (by decide) (by decide) (by decide)⟩

/-! ## C1 — canonical / mirrored token synchronization after auth -/

/-- C1 counterexample: a successful register over the RPC transport
whose wire response carries the token `"tk"` updates the gRPC
sub-client's mirror but leaves the Façade's canonical Session State
cell at `None`: the two copies disagree, and a `get_token` (or any
call reading Session State) issued by the same caller right after the
register still observes no token. -/
theorem register_grpc_token_counterexample :
    BlogClientState.register ⟨.grpc "A", none, some ⟨none⟩, none⟩
        "un" "em" "pw" "fn" ⟨0, "", none⟩ (.ok ⟨7, "tk", "ok"⟩) "NOW" =
      (⟨.grpc "A", none, some ⟨some "tk"⟩, none⟩,
        .ok ⟨"", ⟨7, "un", "em", "NOW"⟩⟩) ∧
    (BlogClientState.register ⟨.grpc "A", none, some ⟨none⟩, none⟩
        "un" "em" "pw" "fn" ⟨0, "", none⟩ (.ok ⟨7, "tk", "ok"⟩) "NOW").1.get_token = none ∧
    (some "tk" : Option String) ≠ none := by
  refine ⟨by decide, by decide, by decide⟩

/-- C1 amended: after a successful login on either transport, and
after a successful register over HTTP, the canonical Session State
cell and the active sub-client's mirror both hold the freshly issued
token (the fire-and-forget canonical write modelled as completed
before the next call); register over the RPC transport is the
exception — it updates only the sub-client mirror and never writes the
canonical cell. -/
theorem auth_token_sync_amended (h : HttpClientState) (g : GrpcClientState)
    (cTok : Option String) (a : AuthResponse) (u : GrpcUserWire)
    (bu ad un em pw fn body now tok rt : String) (exp : Int)
    (hwd : HttpAuthWire) (gwr : Except GrpcStatus RegisterWire)
    (gwl : Except GrpcStatus LoginWire) (htok : tok ≠ "") :
    (BlogClientState.register ⟨.http bu, some h, none, cTok⟩ un em pw fn
        ⟨200, body, some a⟩ gwr now =
      (⟨.http bu, some ⟨h.base_url, some a.token⟩, none, some a.token⟩, .ok a)) ∧
    (BlogClientState.login ⟨.http bu, some h, none, cTok⟩ un pw
        ⟨200, body, some a⟩ gwl =
      (⟨.http bu, some ⟨h.base_url, some a.token⟩, none, some a.token⟩, .ok a)) ∧
    (BlogClientState.login ⟨.grpc ad, none, some g, cTok⟩ un pw hwd
        (.ok ⟨tok, rt, some u, exp⟩) =
      (⟨.grpc ad, none, some ⟨some tok⟩, some tok⟩,
        .ok ⟨tok, ⟨u.id, un, u.email, u.created_at⟩⟩)) := by
  refine ⟨?_, ?_, ?_⟩
  · rfl
  · rfl
  · simp [BlogClientState.login, GrpcClientState.login, GrpcClientState.set_token, htok]

/-- C1 witness: the amended synchronization at concrete inputs. -/
theorem auth_token_sync_amended_witness :
    ("tk" : String) ≠ "" ∧
    ((BlogClientState.register ⟨.http "B", some ⟨"B", none⟩, none, none⟩ "un" "em" "pw" "fn"
        ⟨200, "", some ⟨"atk", ⟨1, "au", "ae", "ac"⟩⟩⟩ (.ok ⟨0, "", ""⟩) "NOW" =
      (⟨.http "B", some ⟨"B", some "atk"⟩, none, some "atk"⟩,
        .ok ⟨"atk", ⟨1, "au", "ae", "ac"⟩⟩)) ∧
    (BlogClientState.login ⟨.http "B", some ⟨"B", none⟩, none, none⟩ "un" "pw"
        ⟨200, "", some ⟨"atk", ⟨1, "au", "ae", "ac"⟩⟩⟩ (.ok ⟨"", "", none, 0⟩) =
      (⟨.http "B", some ⟨"B", some "atk"⟩, none, some "atk"⟩,
        .ok ⟨"atk", ⟨1, "au", "ae", "ac"⟩⟩)) ∧
    (BlogClientState.login ⟨.grpc "A", none, some ⟨none⟩, none⟩ "un" "pw" ⟨0, "", none⟩
        (.ok ⟨"tk", "", some ⟨2, "gu", "ge", "gc"⟩, 0⟩) =
      (⟨.grpc "A", none, some ⟨some "tk"⟩, some "tk"⟩,
        .ok ⟨"tk", ⟨2, "un", "ge", "gc"⟩⟩))) :=
  ⟨by decide,
   auth_token_sync_amended ⟨"B", none⟩ ⟨none⟩ none ⟨"atk", ⟨1, "au", "ae", "ac"⟩⟩
     ⟨2, "gu", "ge", "gc"⟩ "B" "A" "un" "em" "pw" "fn" "" "NOW" "tk" "" 0
     ⟨0, "", none⟩ (.ok ⟨0, "", ""⟩) (.ok ⟨"", "", none, 0⟩) (by decide)⟩

/-! ## C8 — provenance of the returned User -/

/-- C8 counterexample: for register over the RPC transport, the
creation timestamp of the returned user is computed locally from the
client clock: two calls with the *identical* wire response but
different clock readings return different users, and the returned
`created_at` equals the clock reading — which the remote service never
sent (its register response carries no user payload beyond the id). -/
theorem user_identity_counterexample :
    (BlogClientState.register ⟨.grpc "A", none, some ⟨none⟩, none⟩
        "un" "em" "pw" "fn" ⟨0, "", none⟩ (.ok ⟨7, "tk", "ok"⟩) "CLOCK-A").2 =
      .ok ⟨"", ⟨7, "un", "em", "CLOCK-A"⟩⟩ ∧
    (BlogClientState.register ⟨.grpc "A", none, some ⟨none⟩, none⟩
        "un" "em" "pw" "fn" ⟨0, "", none⟩ (.ok ⟨7, "tk", "ok"⟩) "CLOCK-A").2 ≠
    (BlogClientState.register ⟨.grpc "A", none, some ⟨none⟩, none⟩
        "un" "em" "pw" "fn" ⟨0, "", none⟩ (.ok ⟨7, "tk", "ok"⟩) "CLOCK-B").2 := by
  refine ⟨by decide, by decide⟩

/-- C8 amended: over HTTP, register and login return the decoded
remote user verbatim. Over RPC, login returns the remote id, email and
creation timestamp but echoes the request username; register returns
only the remote user id and fabricates the rest — username and email
echo the request arguments and `created_at` is the local clock
reading. -/
theorem user_identity_amended (h : HttpClientState) (g : GrpcClientState)
    (cTok : Option String) (a : AuthResponse) (u : GrpcUserWire)
    (bu ad un em pw fn body now tok rt msg : String) (exp uid : Int)
    (hwd : HttpAuthWire) (gwr : Except GrpcStatus RegisterWire)
    (gwl : Except GrpcStatus LoginWire) :
    ((BlogClientState.register ⟨.http bu, some h, none, cTok⟩ un em pw fn
        ⟨200, body, some a⟩ gwr now).2 = .ok a) ∧
    ((BlogClientState.login ⟨.http bu, some h, none, cTok⟩ un pw
        ⟨200, body, some a⟩ gwl).2 = .ok a) ∧
    ((BlogClientState.login ⟨.grpc ad, none, some g, cTok⟩ un pw hwd
        (.ok ⟨tok, rt, some u, exp⟩)).2 =
      .ok ⟨tok, ⟨u.id, un, u.email, u.created_at⟩⟩) ∧
    ((BlogClientState.register ⟨.grpc ad, none, some g, cTok⟩ un em pw fn hwd
        (.ok ⟨uid, tok, msg⟩) now).2 = .ok ⟨"", ⟨uid, un, em, now⟩⟩) := by
  refine ⟨rfl, rfl, ?_, ?_⟩
  · simp [BlogClientState.login, GrpcClientState.login]
  · simp [BlogClientState.register, GrpcClientState.register]

end Blog
